import Mathlib

/-!
Verification development for the PDF-to-Markdown OCR converter (`src/app.py`).

The program is a single-file Streamlit application.  Its core is
`process_pdf(pdf_bytes)`: open the document, iterate pages (emitting a
progress notification at the top of each loop iteration), extract native
text per page, enumerate embedded images, validate each image
(`validate_image`), write admitted images to a transient temp file, run
EasyOCR on that file, and assemble a markdown artifact plus `errors` and
`warnings` ledgers; a batch loop over uploaded files zips the non-empty
rendered artifacts and reports per-document failures via `st.error`.

The shallow embedding below models the external collaborators (PyMuPDF,
PIL, EasyOCR, the filesystem) by the observable outcomes the code branches
on: a `Page` records whether `doc.load_page` succeeds, the outcome of
`page.get_text`, the page rectangle, and its embedded images; an
`EmbImage` records the byte length of the encoded image, what PIL decodes
it to, whether `doc.extract_image` succeeds, the outcome of
`reader.readtext`, and whether `os.unlink` of the temp file succeeds.
Side effects relevant to the claims (progress notifications, temp-file
writes, OCR engine invocations, unlink calls) are emitted into an explicit
event trace.  All strings appended to `markdown` / `errors` / `warnings`
are reproduced verbatim from the source.
-/

deriving instance DecidableEq for Except

/-- Constants from `src/app.py` lines 17-20. -/
def MAX_PDF_SIZE_MB : Nat := 50

/-- `MAX_IMAGE_SIZE_MB = 10` (app.py line 18). -/
def MAX_IMAGE_SIZE_MB : Nat := 10

/-- `MAX_PAGE_PIXELS = 1e7` (app.py line 19); the float literal 1e7 is exactly 10000000. -/
def MAX_PAGE_PIXELS : Nat := 10000000

/-- `OCR_TIMEOUT_SECONDS = 30` (app.py line 20); declared in the source but never used. -/
def OCR_TIMEOUT_SECONDS : Nat := 30

/-- One embedded image of a page, described by the outcomes of the external
calls the code makes on it (app.py lines 94-127). -/
structure EmbImage where
  /-- `len(image_bytes)` of the encoded image returned by `doc.extract_image`. -/
  size : Nat
  /-- Outcome of `PIL.Image.open` on the bytes: `none` if decoding raises,
  `some fmt` if it decodes with `img.format == fmt` (app.py lines 43-45). -/
  decodesTo : Option String
  /-- Whether `doc.extract_image(xref)` succeeds (app.py line 97). -/
  extractOk : Bool := true
  /-- `str(e)` of the exception when `extractOk = false`. -/
  extractMsg : String := ""
  /-- Outcome of `reader.readtext(temp_path, detail=0)` (app.py line 113):
  `Except.error m` if the call raises with message `m`, `Except.ok lines`
  if it returns the recognized line strings. -/
  ocr : Except String (List String) := .ok []
  /-- Whether `os.unlink(temp_path)` succeeds (app.py line 123). -/
  unlinkOk : Bool := true
  deriving DecidableEq, Repr

/-- One page of an opened document (app.py lines 74-127). -/
structure Page where
  /-- Whether `doc.load_page(page_num)` succeeds (app.py line 75). -/
  loadOk : Bool := true
  /-- `str(e)` of the exception when `loadOk = false`. -/
  loadMsg : String := ""
  /-- `page.rect.width` (app.py line 78); modelled as a natural number. -/
  width : Nat := 0
  /-- `page.rect.height` (app.py line 78); modelled as a natural number. -/
  height : Nat := 0
  /-- Outcome of `page.get_text()` (app.py line 83). -/
  text : Except String String := .ok ""
  /-- `page.get_images(full=True)` (app.py line 90), with each image's
  external-call outcomes. -/
  images : List EmbImage := []
  deriving DecidableEq, Repr

/-- One uploaded byte buffer purporting to be a PDF. -/
structure PdfInput where
  /-- `len(pdf_bytes)` (app.py line 35). -/
  size : Nat
  /-- Outcome of `fitz.open(stream=pdf_bytes)` (app.py line 53): the pages
  of the opened document, or the raising exception's message. -/
  openResult : Except String (List Page)
  deriving DecidableEq, Repr

/-- Observable side effects of `process_pdf`, in program order. -/
inductive Event where
  /-- `progress_bar.progress((page_num + 1) / total_pages)` (app.py lines 70-71),
  recorded as the fraction's numerator and denominator. -/
  | progress (num den : Nat)
  /-- `doc.load_page(page_num)` is invoked (app.py line 75). -/
  | loadPage (page : Nat)
  /-- The image bytes are written to a `NamedTemporaryFile` (app.py lines 105-107). -/
  | writeTemp (page img : Nat)
  /-- `reader.readtext` is invoked on the temp file (app.py line 113). -/
  | ocrCall (page img : Nat)
  /-- `os.unlink(temp_path)` is invoked (app.py line 123); `ok` records
  whether the deletion succeeded. -/
  | unlink (page img : Nat) (ok : Bool)
  deriving DecidableEq, Repr

/-- The three accumulator lists of `process_pdf` (app.py lines 59-61)
together with the event trace. -/
@[ext]
structure Pieces where
  markdown : List String := []
  errors : List String := []
  warnings : List String := []
  trace : List Event := []
  deriving DecidableEq, Repr

instance : Append Pieces :=
  ⟨fun a b => ⟨a.markdown ++ b.markdown, a.errors ++ b.errors,
               a.warnings ++ b.warnings, a.trace ++ b.trace⟩⟩

/-- `validate_image(image_bytes)` (app.py lines 39-47): raises `ValueError`
when the bytes exceed the image size ceiling; otherwise returns whether PIL
decodes them to a format in the allow-set (decode failure returns `False`). -/
def validate_image (img : EmbImage) : Except String Bool :=
  if img.size > MAX_IMAGE_SIZE_MB * 1024 * 1024 then
    .error ("Image too large (max " ++ toString MAX_IMAGE_SIZE_MB ++ "MB allowed)")
  else
    match img.decodesTo with
    | none => .ok false
    | some fmt => .ok (fmt ∈ ["PNG", "JPEG", "TIFF"])

/-- Body of the per-image loop (app.py lines 94-127) for the image at
0-based index `imgIdx` of 0-based page `pageNum`; `readerOk` is whether the
process-wide EasyOCR reader initialized (`reader is not None`, app.py
lines 23-31 and 110). -/
def processImage (readerOk : Bool) (pageNum imgIdx : Nat) (img : EmbImage) : Pieces :=
  if !img.extractOk then
    { errors := ["❌ Failed to process image " ++ toString (imgIdx + 1) ++ " on page "
                  ++ toString (pageNum + 1) ++ ": " ++ img.extractMsg] }
  else
    match validate_image img with
    | .error m =>
        { errors := ["❌ Failed to process image " ++ toString (imgIdx + 1) ++ " on page "
                      ++ toString (pageNum + 1) ++ ": " ++ m] }
    | .ok false =>
        { warnings := ["⚠️ Skipped image " ++ toString (imgIdx + 1) ++ " on page "
                        ++ toString (pageNum + 1) ++ ": Invalid format or corrupted"] }
    | .ok true =>
        if !readerOk then
          { errors := ["❌ OCR Error for image " ++ toString (imgIdx + 1) ++ " on page "
                        ++ toString (pageNum + 1) ++ ": OCR engine not initialized"],
            trace := [.writeTemp pageNum imgIdx, .unlink pageNum imgIdx img.unlinkOk] }
        else
          match img.ocr with
          | .error m =>
              { errors := ["❌ OCR Error for image " ++ toString (imgIdx + 1) ++ " on page "
                            ++ toString (pageNum + 1) ++ ": " ++ m],
                trace := [.writeTemp pageNum imgIdx, .ocrCall pageNum imgIdx,
                          .unlink pageNum imgIdx img.unlinkOk] }
          | .ok [] =>
              { warnings := ["⚠️ No text found in image " ++ toString (imgIdx + 1)
                              ++ " on page " ++ toString (pageNum + 1)],
                trace := [.writeTemp pageNum imgIdx, .ocrCall pageNum imgIdx,
                          .unlink pageNum imgIdx img.unlinkOk] }
          | .ok results =>
              { markdown := ["**Image " ++ toString (imgIdx + 1) ++ " OCR:**\n"
                              ++ String.intercalate " " results ++ "\n"],
                trace := [.writeTemp pageNum imgIdx, .ocrCall pageNum imgIdx,
                          .unlink pageNum imgIdx img.unlinkOk] }

/-- The per-image loop `for img_idx, img in enumerate(img_list)` (app.py
line 94), with `imgIdx` the index of the first image in `imgs`. -/
def processImages (readerOk : Bool) (pageNum : Nat) (imgs : List EmbImage)
    (imgIdx : Nat) : Pieces :=
  match imgs with
  | [] => {}
  | img :: rest =>
      processImage readerOk pageNum imgIdx img
        ++ processImages readerOk pageNum rest (imgIdx + 1)

/-- Body of the per-page loop after the progress notification (app.py
lines 74-130): load the page, warn when the page rectangle exceeds the
pixel ceiling, extract native text (on failure record the error and
`continue` — nothing is appended to `markdown` for this page and no image
is processed), emit the `### Images on Page` heading whenever the page has
any embedded image, then run the per-image loop. -/
def processPage (readerOk : Bool) (pageNum : Nat) (pg : Page) : Pieces :=
  if !pg.loadOk then
    { errors := ["❌ Failed to process page " ++ toString (pageNum + 1) ++ ": " ++ pg.loadMsg],
      trace := [.loadPage pageNum] }
  else
    let sizeWarnings : List String :=
      if pg.width * pg.height > MAX_PAGE_PIXELS then
        ["⚠️ Page " ++ toString (pageNum + 1) ++ " too large, might affect processing quality"]
      else []
    match pg.text with
    | .error m =>
        { errors := ["❌ Failed to extract text from page " ++ toString (pageNum + 1)
                      ++ ": " ++ m],
          warnings := sizeWarnings,
          trace := [.loadPage pageNum] }
    | .ok t =>
        let imgPieces := processImages readerOk pageNum pg.images 0
        { markdown := ("## Page " ++ toString (pageNum + 1) ++ "\n\n" ++ t)
            :: (if pg.images.isEmpty then [] else
                  ["### Images on Page " ++ toString (pageNum + 1)])
            ++ imgPieces.markdown,
          errors := imgPieces.errors,
          warnings := sizeWarnings ++ imgPieces.warnings,
          trace := Event.loadPage pageNum :: imgPieces.trace }

/-- The page loop `for page_num in range(total_pages)` (app.py lines
69-130): the progress notification with fraction `(page_num + 1) / total_pages`
is emitted at the top of each iteration, before the page is processed. -/
def processPages (readerOk : Bool) (pages : List Page) (pageNum total : Nat) : Pieces :=
  match pages with
  | [] => {}
  | pg :: rest =>
      ({ trace := [.progress (pageNum + 1) total] } ++ processPage readerOk pageNum pg)
        ++ processPages readerOk rest (pageNum + 1) total

/-- Rendering of the accumulated pieces into the returned markdown string
(app.py lines 137-147): a `Processing Summary` section is appended only
when at least one error or warning was collected, then everything is
joined with blank lines. -/
def renderOutput (p : Pieces) : String :=
  let md := p.markdown
    ++ (if p.errors.isEmpty && p.warnings.isEmpty then [] else
          ["\n## Processing Summary"]
          ++ (if p.errors.isEmpty then [] else "\n### Errors" :: p.errors)
          ++ (if p.warnings.isEmpty then [] else "\n### Warnings" :: p.warnings))
  String.intercalate "\n\n" md

/-- `validate_pdf_size(pdf_bytes)` (app.py lines 33-37) raises exactly when
`len(pdf_bytes) / (1024 * 1024) > 50`, i.e. when the byte length exceeds
`50 * 1024 * 1024`.  The exception message's `{size_mb:.1f}` figure is
rendered here by truncation to one decimal place. -/
def validate_pdf_size_fails (size : Nat) : Bool :=
  size > MAX_PDF_SIZE_MB * 1024 * 1024

/-- Message of the `ValueError` raised by `validate_pdf_size`. -/
def pdfTooLargeMsg (size : Nat) : String :=
  let tenths := size * 10 / (1024 * 1024)
  "PDF file too large (max " ++ toString MAX_PDF_SIZE_MB ++ "MB allowed, got "
    ++ toString (tenths / 10) ++ "." ++ toString (tenths % 10) ++ "MB)"

/-- `process_pdf(pdf_bytes)` (app.py lines 49-147), up to rendering: size
validation and container opening happen first, and a failure of either is
re-raised as `ValueError("Failed to open PDF: ...")`; otherwise the page
loop runs and the accumulated pieces are returned.  (The progress bar,
status text and document handle are released in the `finally` at lines
132-135; they hold no data of the result.) -/
def process_pdf (readerOk : Bool) (d : PdfInput) : Except String Pieces :=
  if validate_pdf_size_fails d.size then
    .error ("Failed to open PDF: " ++ pdfTooLargeMsg d.size)
  else
    match d.openResult with
    | .error m => .error ("Failed to open PDF: " ++ m)
    | .ok pages => .ok (processPages readerOk pages 0 pages.length)

/-- `process_pdf`'s returned string: `"\n\n".join(markdown)` after the
summary section is appended (app.py line 147). -/
def process_pdf_rendered (readerOk : Bool) (d : PdfInput) : Except String String :=
  (process_pdf readerOk d).map renderOutput

/-- One uploaded file of the batch (app.py lines 156-160). -/
structure UploadedFile where
  name : String
  file : PdfInput
  deriving DecidableEq, Repr

/-- `os.path.splitext(name)[0]` (app.py line 172): the name up to its last
dot, the whole name when it has none.  (Uploaded names are plain file
names; the path-separator and leading-dot special cases of `splitext` do
not arise here.) -/
def splitextRoot (name : String) : String :=
  let parts := name.splitOn "."
  if parts.length ≤ 1 then name else String.intercalate "." parts.dropLast

/-- The batch loop under the `Process Files` button (app.py lines 162-176):
for each uploaded file, `process_pdf` is run; on an exception an
`st.error` message is recorded; on success the rendered markdown is added
to the zip archive under the derived `.md` name — but only when the
rendered string is non-empty (`if md_content:`, app.py line 171).
Returns the zip entries and the recorded error messages, each in order. -/
def processBatch (readerOk : Bool) (files : List UploadedFile) :
    List (String × String) × List String :=
  match files with
  | [] => ([], [])
  | f :: rest =>
      match process_pdf_rendered readerOk f.file with
      | .error e =>
          ((processBatch readerOk rest).1,
           ("Error processing " ++ f.name ++ ": " ++ e) :: (processBatch readerOk rest).2)
      | .ok md =>
          (if md = "" then (processBatch readerOk rest).1
           else (splitextRoot f.name ++ ".md", md) :: (processBatch readerOk rest).1,
           (processBatch readerOk rest).2)

/-- Whether a file produces any outcome in the batch loop: an `st.error`
message, or a zip entry (which requires the rendered markdown to be
non-empty, app.py line 171). -/
def producesOutcome (readerOk : Bool) (f : UploadedFile) : Bool :=
  match process_pdf_rendered readerOk f.file with
  | .error _ => true
  | .ok md => md != ""

/-- Projection of a trace event to the reported progress fraction. -/
def progressOf : Event → Option (Nat × Nat)
  | .progress a b => some (a, b)
  | _ => none

/-- The sequence of progress fractions notified during a trace. -/
def progressFractions (tr : List Event) : List (Nat × Nat) :=
  tr.filterMap progressOf

/-- Modelled from the spec: the trace the page loop would produce if, as
the spec states, the progress notification with fraction
`(pagesAttempted)/(totalPages)` were emitted AFTER each page's processing
rather than before it.  Used only to compare against the trace the code
produces. -/
def progressAfterEachPageTrace (readerOk : Bool) (pages : List Page)
    (pageNum total : Nat) : List Event :=
  match pages with
  | [] => []
  | pg :: rest =>
      (processPage readerOk pageNum pg).trace ++ [.progress (pageNum + 1) total]
        ++ progressAfterEachPageTrace readerOk rest (pageNum + 1) total

/-- Whether an `Except` outcome is a raised exception. -/
def exceptRaises {ε α : Type} (e : Except ε α) : Bool :=
  match e with
  | .error _ => true
  | .ok _ => false

/-- The Image Gate rejects the image: `validate_image` either raises
(size ceiling) or returns `False` (decode failure or disallowed format). -/
def GateRejects (img : EmbImage) : Prop :=
  validate_image img ≠ .ok true

/-- The image passes extraction and the Image Gate, so the OCR path runs. -/
def Admitted (img : EmbImage) : Prop :=
  img.extractOk = true ∧ validate_image img = .ok true

/-- The image's processing fails in the sense of claim C7: its extraction
raises (a transient I/O error), the gate raises (image size ceiling), or
the OCR invocation fails (engine missing or `readtext` raising).  A gate
rejection that merely returns `False` is a warning, not a failure. -/
def ImageFails (readerOk : Bool) (img : EmbImage) : Prop :=
  img.extractOk = false
    ∨ (img.extractOk = true ∧ exceptRaises (validate_image img) = true)
    ∨ (Admitted img ∧ (readerOk = false ∨ exceptRaises img.ocr = true))

/-- A well-formed PNG image whose OCR recognizes the single line "HELLO". -/
def imgHello : EmbImage :=
  { size := 100, decodesTo := some "PNG", ocr := .ok ["HELLO"] }

/-- A PNG image one byte over the 10MB image ceiling. -/
def imgOversize : EmbImage :=
  { size := 10 * 1024 * 1024 + 1, decodesTo := some "PNG", ocr := .ok ["X"] }

/-- An image whose bytes PIL fails to decode. -/
def imgUndecodable : EmbImage :=
  { size := 5, decodesTo := none }

/-- A decodable image of a format outside the allow-set. -/
def imgBmp : EmbImage :=
  { size := 5, decodesTo := some "BMP" }

/-- An image whose `doc.extract_image` call raises. -/
def imgExtractFail : EmbImage :=
  { size := 0, decodesTo := none, extractOk := false, extractMsg := "bad xref" }

/-- An admitted image whose `readtext` call raises. -/
def imgOcrFail : EmbImage :=
  { size := 7, decodesTo := some "JPEG", ocr := .error "cuda oom" }

/-- An admitted image with no recognized text. -/
def imgNoText : EmbImage :=
  { size := 9, decodesTo := some "TIFF", ocr := .ok [] }

/-- An admitted image whose temp-file deletion fails. -/
def imgUnlinkFail : EmbImage :=
  { size := 3, decodesTo := some "PNG", ocr := .ok ["hi"], unlinkOk := false }

/-- A zero-byte upload that opens as a document with zero pages. -/
def fileEmptyDoc : UploadedFile :=
  ⟨"empty.pdf", ⟨0, .ok []⟩⟩

/-- A page whose text extraction raises, carrying one valid image. -/
def pgTextFail : Page :=
  { text := .error "boom", images := [imgHello] }

/-- A page with empty native text whose only image the gate rejects. -/
def pgRejectedOnly : Page :=
  { text := .ok "", images := [imgUndecodable] }

/-- A page with native text "hello" and one valid image. -/
def pageHello : Page :=
  { text := .ok "hello", images := [imgHello] }

/-- A one-page document whose page carries one valid image. -/
def docOnePage : PdfInput :=
  ⟨10, .ok [pageHello]⟩

/-- Whether an image yields recognized text: it is extracted, admitted by
the gate, the OCR engine is available, and `readtext` returns a non-empty
list of lines. -/
def yieldsText (readerOk : Bool) (img : EmbImage) : Bool :=
  img.extractOk && decide (validate_image img = .ok true) && readerOk
    && (match img.ocr with
        | .ok (_ :: _) => true
        | _ => false)

/-- Erase the success flag of unlink events, for comparing traces up to
whether the deletion succeeded. -/
def scrubUnlink : Event → Event
  | .unlink p i _ => .unlink p i true
  | e => e

/-! ## Helper lemmas -/

@[simp]
theorem Pieces.markdown_append (a b : Pieces) :
    (a ++ b).markdown = a.markdown ++ b.markdown := rfl

@[simp]
theorem Pieces.errors_append (a b : Pieces) :
    (a ++ b).errors = a.errors ++ b.errors := rfl

@[simp]
theorem Pieces.warnings_append (a b : Pieces) :
    (a ++ b).warnings = a.warnings ++ b.warnings := rfl

@[simp]
theorem Pieces.trace_append (a b : Pieces) :
    (a ++ b).trace = a.trace ++ b.trace := rfl

theorem Pieces.append_assoc (a b c : Pieces) : a ++ b ++ c = a ++ (b ++ c) := by
  ext1 <;> simp

@[simp]
theorem Pieces.empty_append (a : Pieces) : ({} : Pieces) ++ a = a := by
  ext1 <;> simp [EmptyCollection]

@[simp]
theorem Pieces.append_empty (a : Pieces) : a ++ ({} : Pieces) = a := by
  ext1 <;> simp

@[simp]
theorem processImages_nil (r : Bool) (p k : Nat) :
    processImages r p [] k = {} := rfl

theorem processImages_cons (r : Bool) (p k : Nat) (img : EmbImage) (rest : List EmbImage) :
    processImages r p (img :: rest) k
      = processImage r p k img ++ processImages r p rest (k + 1) := rfl

theorem processImages_append (r : Bool) (p : Nat) (xs ys : List EmbImage) (k : Nat) :
    processImages r p (xs ++ ys) k
      = processImages r p xs k ++ processImages r p ys (k + xs.length) := by
  induction xs generalizing k with
  | nil => simp
  | cons x xs ih =>
      have hk : k + (xs.length + 1) = (k + 1) + xs.length := by omega
      simp [List.cons_append, processImages_cons, ih, Pieces.append_assoc, hk]

theorem processPages_cons (r : Bool) (pg : Page) (rest : List Page) (i t : Nat) :
    processPages r (pg :: rest) i t
      = (({ trace := [.progress (i + 1) t] } : Pieces) ++ processPage r i pg)
          ++ processPages r rest (i + 1) t := rfl

/-- The per-image event trace has one of three shapes: nothing (the image
never reached the temp-file write), write-then-unlink (engine missing), or
write-ocr-unlink. -/
theorem processImage_trace_shape (r : Bool) (p k : Nat) (img : EmbImage) :
    (processImage r p k img).trace = []
      ∨ (processImage r p k img).trace
          = [.writeTemp p k, .unlink p k img.unlinkOk]
      ∨ (processImage r p k img).trace
          = [.writeTemp p k, .ocrCall p k, .unlink p k img.unlinkOk] := by
  unfold processImage
  split
  · exact Or.inl rfl
  · split
    · exact Or.inl rfl
    · exact Or.inl rfl
    · split
      · exact Or.inr (Or.inl rfl)
      · split
        · exact Or.inr (Or.inr rfl)
        · exact Or.inr (Or.inr rfl)
        · exact Or.inr (Or.inr rfl)

@[simp]
theorem progressFractions_nil : progressFractions [] = [] := rfl

@[simp]
theorem progressFractions_append (a b : List Event) :
    progressFractions (a ++ b) = progressFractions a ++ progressFractions b :=
  List.filterMap_append a b progressOf

theorem progressFractions_processImage (r : Bool) (p k : Nat) (img : EmbImage) :
    progressFractions (processImage r p k img).trace = [] := by
  rcases processImage_trace_shape r p k img with h | h | h <;>
    simp [h, progressFractions, progressOf, List.filterMap]

theorem progressFractions_processImages (r : Bool) (p : Nat) (imgs : List EmbImage)
    (k : Nat) : progressFractions (processImages r p imgs k).trace = [] := by
  induction imgs generalizing k with
  | nil => rfl
  | cons img rest ih =>
      rw [processImages_cons, Pieces.trace_append, progressFractions_append,
          progressFractions_processImage, ih]
      rfl

theorem progressFractions_processPage (r : Bool) (i : Nat) (pg : Page) :
    progressFractions (processPage r i pg).trace = [] := by
  have himgs := progressFractions_processImages r i pg.images 0
  cases hl : pg.loadOk with
  | false =>
      have htr : (processPage r i pg).trace = [Event.loadPage i] := by
        simp [processPage, hl]
      rw [htr]; rfl
  | true =>
      cases ht : pg.text with
      | error m =>
          have htr : (processPage r i pg).trace = [Event.loadPage i] := by
            simp [processPage, hl, ht]
          rw [htr]; rfl
      | ok txt =>
          have htr : (processPage r i pg).trace
              = Event.loadPage i :: (processImages r i pg.images 0).trace := by
            simp [processPage, hl, ht]
          rw [htr]
          simpa [progressFractions, progressOf, List.filterMap_cons] using himgs

theorem progressFractions_processPages (r : Bool) (pages : List Page) (i t : Nat) :
    progressFractions (processPages r pages i t).trace
      = (List.range pages.length).map (fun k => (i + k + 1, t)) := by
  induction pages generalizing i with
  | nil => rfl
  | cons pg rest ih =>
      rw [processPages_cons, Pieces.trace_append, Pieces.trace_append,
          progressFractions_append, progressFractions_append,
          progressFractions_processPage, ih (i + 1)]
      have h2 : progressFractions (({ trace := [Event.progress (i + 1) t] } : Pieces).trace)
          = [(i + 1, t)] := rfl
      rw [h2, List.length_cons, List.range_succ_eq_map, List.map_cons, List.map_map]
      have hfun : (fun k : Nat => (i + 1 + k + 1, t))
          = (fun k : Nat => (i + k + 1, t)) ∘ Nat.succ :=
        funext fun k => congrArg (fun n => (n, t)) (by omega)
      rw [hfun]
      simp

theorem chain_fractions (n t : Nat) :
    List.Chain' (fun a b : Nat × Nat => a.1 < b.1 ∧ a.2 = b.2)
      ((List.range n).map fun k => (k + 1, t)) := by
  have hp : ((List.range n).map fun k => (k + 1, t)).Pairwise
      (fun a b : Nat × Nat => a.1 < b.1 ∧ a.2 = b.2) := by
    refine List.Pairwise.map _ ?_ (List.pairwise_lt_range n)
    intro a b hab
    exact ⟨by omega, rfl⟩
  exact hp.chain'

theorem getLast_fractions (n t : Nat) (hn : 0 < n) :
    ((List.range n).map fun k => (k + 1, t)).getLast? = some (n, t) := by
  obtain ⟨m, rfl⟩ : ∃ m, n = m + 1 := ⟨n - 1, by omega⟩
  rw [List.range_succ, List.map_append]
  simp

theorem string_ne_of_data_take_ne (n : Nat) (s t : String)
    (h : s.data.take n ≠ t.data.take n) : s ≠ t := by
  intro e
  exact h (by rw [e])

theorem heading_ne_pageSection (a b t : String) :
    ("### Images on Page " ++ a) ≠ ("## Page " ++ b ++ "\n\n" ++ t) := by
  apply string_ne_of_data_take_ne 3
  have hL : ("### Images on Page " ++ a).data.take 3 = ['#', '#', '#'] := rfl
  have hR : ("## Page " ++ b ++ "\n\n" ++ t).data.take 3 = ['#', '#', ' '] := rfl
  rw [hL, hR]
  decide

/-! ## Claim C1 — batch completeness -/

/-- C1 as stated is false: a document that opens with 0 pages renders to
the empty string, so the batch loop (app.py line 171, `if md_content:`)
adds no zip entry for it and reports no failure either — the number of
outcomes (zip entries plus error reports) is 0, not 1, for this
one-document batch.  The document is silently dropped. -/
theorem C1_counterexample :
    ¬ ((processBatch true [fileEmptyDoc]).1.length
        + (processBatch true [fileEmptyDoc]).2.length
        = [fileEmptyDoc].length) := by
  decide

/-- C1 amended: the batch produces exactly one outcome (a zip entry or an
`st.error` report) per input document whose rendered output is non-empty
or whose processing raises; a document whose processing succeeds with an
empty rendered string (e.g. a 0-page document) produces no outcome at all.
So the number of outcomes equals the number of such documents, not the
number of all input documents. -/
theorem C1_amended (readerOk : Bool) (files : List UploadedFile) :
    (processBatch readerOk files).1.length + (processBatch readerOk files).2.length
      = (files.filter (producesOutcome readerOk)).length := by
  induction files with
  | nil => rfl
  | cons f rest ih =>
      cases hpr : process_pdf_rendered readerOk f.file with
      | error e =>
          have hpo : producesOutcome readerOk f = true := by
            simp [producesOutcome, hpr]
          simp only [processBatch, hpr, List.filter_cons, hpo, if_pos,
            List.length_cons]
          omega
      | ok md =>
          by_cases hmd : md = ""
          · have hpo : producesOutcome readerOk f = false := by
              simp [producesOutcome, hpr, hmd]
            simp only [processBatch, hpr, List.filter_cons, hpo, if_pos, hmd,
              Bool.false_eq_true, if_false]
            omega
          · have hpo : producesOutcome readerOk f = true := by
              simp [producesOutcome, hpr, hmd]
            simp only [processBatch, hpr, List.filter_cons, hpo, if_pos, hmd,
              if_false, List.length_cons]
            omega

/-! ## Claim C2 — Image Gate rejection semantics -/

/-- C2 as stated is false at an image one byte over the 10MB ceiling:
`validate_image` raises for it (app.py line 42), the exception is caught
by the per-image handler at line 126, and an Error-severity entry — not a
Warning — is recorded (`errors.append`).  The claimed "exactly one
Warning, never an Error" does not hold for the size-ceiling rejection. -/
theorem C2_counterexample :
    ¬ ((processImage true 0 0 imgOversize).warnings.length = 1
        ∧ (processImage true 0 0 imgOversize).errors = []) := by
  decide

/-- C2 amended: for every image the gate rejects, the OCR engine is never
invoked, no temp file is written, nothing is added to the artifact body,
and exactly one diagnostic is recorded — but its severity depends on the
rejection reason: a decode failure or disallowed format yields exactly one
Warning (line 102), while exceeding the image size ceiling raises out of
`validate_image` and yields exactly one Error recorded by the per-image
handler (line 127).  Processing continues with the next image in either
case (the per-image loop is a fold of these per-image pieces). -/
theorem C2_amended (readerOk : Bool) (p k : Nat) (img : EmbImage)
    (hx : img.extractOk = true) (hrej : GateRejects img) :
    (processImage readerOk p k img).trace = []
    ∧ (processImage readerOk p k img).markdown = []
    ∧ (processImage readerOk p k img).errors.length
        + (processImage readerOk p k img).warnings.length = 1
    ∧ (img.size ≤ MAX_IMAGE_SIZE_MB * 1024 * 1024 →
        (processImage readerOk p k img).errors = []
        ∧ (processImage readerOk p k img).warnings
            = ["⚠️ Skipped image " ++ toString (k + 1) ++ " on page "
                ++ toString (p + 1) ++ ": Invalid format or corrupted"])
    ∧ (img.size > MAX_IMAGE_SIZE_MB * 1024 * 1024 →
        (processImage readerOk p k img).warnings = []
        ∧ (processImage readerOk p k img).errors
            = ["❌ Failed to process image " ++ toString (k + 1) ++ " on page "
                ++ toString (p + 1) ++ ": "
                ++ ("Image too large (max " ++ toString MAX_IMAGE_SIZE_MB
                    ++ "MB allowed)")]) := by
  by_cases hsz : img.size > MAX_IMAGE_SIZE_MB * 1024 * 1024
  · have hval : validate_image img
        = .error ("Image too large (max " ++ toString MAX_IMAGE_SIZE_MB
            ++ "MB allowed)") := by
      simp [validate_image, hsz]
    have hpi : processImage readerOk p k img
        = { errors := ["❌ Failed to process image " ++ toString (k + 1) ++ " on page "
              ++ toString (p + 1) ++ ": "
              ++ ("Image too large (max " ++ toString MAX_IMAGE_SIZE_MB
                  ++ "MB allowed)")] } := by
      simp [processImage, hx, hval]
    rw [hpi]
    refine ⟨rfl, rfl, rfl, ?_, fun _ => ⟨rfl, rfl⟩⟩
    intro hle
    exact absurd hsz (not_lt.mpr hle)
  · have hval : validate_image img = .ok false := by
      rcases hv : validate_image img with m | b
      · exfalso
        simp [validate_image, hsz] at hv
        rcases hd : img.decodesTo with _ | f <;> simp [hd] at hv
      · cases b
        · rfl
        · exact absurd hv hrej
    have hpi : processImage readerOk p k img
        = { warnings := ["⚠️ Skipped image " ++ toString (k + 1) ++ " on page "
              ++ toString (p + 1) ++ ": Invalid format or corrupted"] } := by
      simp [processImage, hx, hval]
    rw [hpi]
    exact ⟨rfl, rfl, rfl, fun _ => ⟨rfl, rfl⟩, fun hgt => absurd hgt hsz⟩

/-- Concrete instance of `C2_amended`: a decodable BMP image is rejected
with exactly one Warning and no Error. -/
theorem C2_witness :
    (processImage true 0 0 imgBmp).errors = []
    ∧ (processImage true 0 0 imgBmp).warnings
        = ["⚠️ Skipped image " ++ toString (0 + 1) ++ " on page "
            ++ toString (0 + 1) ++ ": Invalid format or corrupted"] :=
  (C2_amended true 0 0 imgBmp rfl
    (by decide : validate_image imgBmp ≠ Except.ok true)).2.2.2.1 (by decide)

/-! ## Claim C3 — text-extraction failure on a page -/

/-- C3 as stated is false: when `page.get_text()` raises on page 2, the
handler at app.py line 86 records the error and `continue`s, but the
append of the page section (line 84) sits AFTER `get_text()` in the same
`try` and is never reached — the artifact contains no `Page 2` section at
all, rather than a section with empty text. -/
theorem C3_counterexample :
    ¬ (("## Page 2\n\n") ∈ (processPage true 1 pgTextFail).markdown
        ∧ (processPage true 1 pgTextFail).errors.length = 1) := by
  decide

/-- C3 amended: if native text extraction fails for page n, exactly one
Error diagnostic scoped to that page is recorded and no image on that page
is processed (no temp file, no OCR call), processing continues with page
n+1 — but the returned artifact contains NO `Page n` section (not an
empty-text one): nothing is appended to the body for that page. -/
theorem C3_amended (readerOk : Bool) (i : Nat) (pg : Page) (m : String)
    (hl : pg.loadOk = true) (ht : pg.text = .error m) :
    (processPage readerOk i pg).markdown = []
    ∧ (processPage readerOk i pg).errors
        = ["❌ Failed to extract text from page " ++ toString (i + 1) ++ ": " ++ m]
    ∧ (∀ p k, Event.writeTemp p k ∉ (processPage readerOk i pg).trace)
    ∧ (∀ p k, Event.ocrCall p k ∉ (processPage readerOk i pg).trace)
    ∧ (∀ rest t, processPages readerOk (pg :: rest) i t
        = (({ trace := [.progress (i + 1) t] } : Pieces) ++ processPage readerOk i pg)
            ++ processPages readerOk rest (i + 1) t) := by
  have hpp : processPage readerOk i pg
      = { errors := ["❌ Failed to extract text from page " ++ toString (i + 1)
            ++ ": " ++ m],
          warnings :=
            if pg.width * pg.height > MAX_PAGE_PIXELS then
              ["⚠️ Page " ++ toString (i + 1) ++ " too large, might affect processing quality"]
            else [],
          trace := [Event.loadPage i] } := by
    simp [processPage, hl, ht]
  refine ⟨by rw [hpp], by rw [hpp], ?_, ?_, fun rest t => rfl⟩
  · intro p k
    rw [hpp]
    simp
  · intro p k
    rw [hpp]
    simp

/-- Concrete instance of `C3_amended` at a failing page 2. -/
theorem C3_witness :
    (processPage true 1 pgTextFail).markdown = []
    ∧ (processPage true 1 pgTextFail).errors
        = ["❌ Failed to extract text from page " ++ toString (1 + 1)
            ++ ": " ++ "boom"] :=
  ⟨(C3_amended true 1 pgTextFail "boom" rfl rfl).1,
   (C3_amended true 1 pgTextFail "boom" rfl rfl).2.1⟩

/-! ## Claim C4 — rendered-artifact image subsection -/

/-- C4 as stated is false: the heading is emitted whenever
`page.get_images` is non-empty (app.py lines 90-92), before any image is
validated or OCRed.  On a page whose only image the gate rejects, the
heading `Images on Page 1` is present although no image yielded
recognized text. -/
theorem C4_counterexample :
    ¬ (("### Images on Page 1" ∈ (processPage true 0 pgRejectedOnly).markdown)
        ↔ pgRejectedOnly.images.any (yieldsText true) = true) := by
  decide

/-- C4 amended: for every page, the heading `Images on Page <n>` appears
in the rendered body exactly when the page loads, its text extraction
succeeds, and the page has at least one embedded image — regardless of
whether any image is admitted by the gate or yields recognized text. -/
theorem C4_amended (readerOk : Bool) (i : Nat) (pg : Page) :
    ("### Images on Page " ++ toString (i + 1)) ∈ (processPage readerOk i pg).markdown
      ↔ (pg.loadOk = true ∧ exceptRaises pg.text = false ∧ pg.images ≠ []) := by
  cases hl : pg.loadOk with
  | false =>
      have hmd : (processPage readerOk i pg).markdown = [] := by
        simp [processPage, hl]
      rw [hmd]
      simp
  | true =>
      cases ht : pg.text with
      | error m =>
          have hmd : (processPage readerOk i pg).markdown = [] := by
            simp [processPage, hl, ht]
          rw [hmd]
          simp [exceptRaises]
      | ok txt =>
          cases him : pg.images with
          | nil =>
              have hmd : (processPage readerOk i pg).markdown
                  = ["## Page " ++ toString (i + 1) ++ "\n\n" ++ txt] := by
                simp [processPage, hl, ht, him]
              rw [hmd]
              simp only [List.mem_singleton]
              constructor
              · intro h
                exact absurd h (heading_ne_pageSection _ _ _)
              · rintro ⟨-, -, habs⟩
                exact (habs rfl).elim
          | cons x xs =>
              constructor
              · intro _
                exact ⟨rfl, rfl, List.cons_ne_nil x xs⟩
              · intro _
                have hmd : (processPage readerOk i pg).markdown
                    = ("## Page " ++ toString (i + 1) ++ "\n\n" ++ txt)
                      :: ("### Images on Page " ++ toString (i + 1))
                      :: (processImages readerOk i (x :: xs) 0).markdown := by
                  simp [processPage, hl, ht, him]
                rw [hmd]
                exact List.mem_cons_of_mem _ (List.mem_cons_self _ _)

/-! ## Claim C5 — degraded OCR mode -/

/-- C5's "fails fast without attempting any I/O (no transient file is
written)" is false: the temp file is written (app.py lines 105-107)
BEFORE the `reader is None` check (line 110), so with the engine absent an
admitted image still gets a transient file written (and then unlinked). -/
theorem C5_counterexample :
    ¬ ((processImage false 0 0 imgHello).errors.length = 1
        ∧ Event.writeTemp 0 0 ∉ (processImage false 0 0 imgHello).trace) := by
  decide

/-- C5 amended: with the OCR engine handle absent, every admitted image
yields exactly one Error diagnostic "OCR engine not initialized" (outcome
Failed), the engine is never invoked — but a transient file IS written for
the image (and then unlinked); native text extraction for pages is
unaffected and proceeds normally. -/
theorem C5_amended (p k : Nat) (img : EmbImage) (ha : Admitted img) :
    processImage false p k img
      = { errors := ["❌ OCR Error for image " ++ toString (k + 1) ++ " on page "
            ++ toString (p + 1) ++ ": OCR engine not initialized"],
          trace := [.writeTemp p k, .unlink p k img.unlinkOk] }
    ∧ Event.ocrCall p k ∉ (processImage false p k img).trace
    ∧ Event.writeTemp p k ∈ (processImage false p k img).trace
    ∧ (∀ i (pg : Page) t, pg.loadOk = true → pg.text = .ok t →
        (processPage false i pg).markdown.head?
          = some ("## Page " ++ toString (i + 1) ++ "\n\n" ++ t)) := by
  obtain ⟨hx, hv⟩ := ha
  have hpi : processImage false p k img
      = { errors := ["❌ OCR Error for image " ++ toString (k + 1) ++ " on page "
            ++ toString (p + 1) ++ ": OCR engine not initialized"],
          trace := [.writeTemp p k, .unlink p k img.unlinkOk] } := by
    simp [processImage, hx, hv]
  refine ⟨hpi, ?_, ?_, ?_⟩
  · rw [hpi]
    simp
  · rw [hpi]
    simp
  · intro i pg t hload htext
    simp [processPage, hload, htext]

/-- Concrete instance of `C5_amended` at an admitted PNG image. -/
theorem C5_witness :
    processImage false 0 0 imgHello
      = { errors := ["❌ OCR Error for image " ++ toString (0 + 1) ++ " on page "
            ++ toString (0 + 1) ++ ": OCR engine not initialized"],
          trace := [.writeTemp 0 0, .unlink 0 0 imgHello.unlinkOk] } :=
  (C5_amended 0 0 imgHello
    ⟨rfl, (by decide : validate_image imgHello = Except.ok true)⟩).1

/-! ## Claim C6 — zero-page document -/

/-- C6 confirmed: a document within the size ceiling whose container opens
with 0 pages produces an empty accumulator (no page sections, no errors,
no warnings, no events) and renders to the empty string — in particular no
`Processing Summary` section exists, since the summary is only appended
when a diagnostic was collected (app.py line 138). -/
theorem C6 (readerOk : Bool) (d : PdfInput)
    (hs : d.size ≤ MAX_PDF_SIZE_MB * 1024 * 1024)
    (ho : d.openResult = .ok []) :
    process_pdf readerOk d = .ok ({} : Pieces)
    ∧ process_pdf_rendered readerOk d = .ok "" := by
  have hv : validate_pdf_size_fails d.size = false := by
    simp only [validate_pdf_size_fails, decide_eq_false_iff_not, gt_iff_lt, not_lt]
    exact hs
  constructor
  · simp [process_pdf, hv, ho, processPages]
  · simp [process_pdf_rendered, process_pdf, hv, ho, processPages, renderOutput]
    rfl

/-- Concrete instance of `C6` at a zero-byte upload opening to 0 pages. -/
theorem C6_witness :
    process_pdf true fileEmptyDoc.file = .ok ({} : Pieces)
    ∧ process_pdf_rendered true fileEmptyDoc.file = .ok "" :=
  C6 true fileEmptyDoc.file (by decide) rfl

/-! ## Claim C7 — sibling-image isolation -/

/-- C7 confirmed: a failure while processing one image — extraction
raising (transient I/O), the gate raising (size ceiling), or the OCR
invocation failing (engine missing or `readtext` raising) — is recorded as
exactly one Error diagnostic naming that image, contributes nothing to the
artifact body and no Warning, while the images before and after it are
processed to exactly their own standalone results (the per-image loop is
the concatenation of per-image pieces, with indices preserved), and the
page's native text section is unaffected. -/
theorem C7 (readerOk : Bool) (p : Nat) (pre post : List EmbImage) (img : EmbImage)
    (hf : ImageFails readerOk img) :
    processImages readerOk p (pre ++ img :: post) 0
      = processImages readerOk p pre 0
        ++ (processImage readerOk p pre.length img
            ++ processImages readerOk p post (pre.length + 1))
    ∧ (processImage readerOk p pre.length img).errors.length = 1
    ∧ (processImage readerOk p pre.length img).markdown = []
    ∧ (processImage readerOk p pre.length img).warnings = []
    ∧ (∀ i (pg : Page) t, pg.loadOk = true → pg.text = .ok t →
        (processPage readerOk i pg).markdown.head?
          = some ("## Page " ++ toString (i + 1) ++ "\n\n" ++ t)) := by
  have hbase : (processImage readerOk p pre.length img).errors.length = 1
      ∧ (processImage readerOk p pre.length img).markdown = []
      ∧ (processImage readerOk p pre.length img).warnings = [] := by
    rcases hf with hx | ⟨hx, hvr⟩ | ⟨⟨hx, hv⟩, hro⟩
    · simp [processImage, hx]
    · rcases hv2 : validate_image img with m | b
      · simp [processImage, hx, hv2]
      · rw [hv2] at hvr
        simp [exceptRaises] at hvr
    · rcases hro with hr | ho
      · simp [processImage, hx, hv, hr]
      · rcases hocr : img.ocr with m | l
        · cases hre : readerOk
          · simp [processImage, hx, hv, hre]
          · simp [processImage, hx, hv, hre, hocr]
        · rw [hocr] at ho
          simp [exceptRaises] at ho
  refine ⟨?_, hbase.1, hbase.2.1, hbase.2.2, ?_⟩
  · rw [processImages_append]
    simp [processImages_cons, Nat.zero_add]
  · intro i pg t hload htext
    simp [processPage, hload, htext]

/-- Concrete instance of `C7`: on a page with three images whose middle
image's extraction raises, the failing image records exactly one Error. -/
theorem C7_witness :
    (processImage true 0 ([imgHello].length) imgExtractFail).errors.length = 1 :=
  (C7 true 0 [imgHello] [imgNoText] imgExtractFail (Or.inl rfl)).2.1

/-! ## Claim C8 — transient-storage cleanup -/

/-- C8 confirmed: for every image and either engine state, the per-image
trace is either empty (the image never reached the temp-file write) or
consists of exactly one temp-file write whose unlink is the LAST event of
the invocation, on every exit path — success, recognized-empty,
engine-missing, and `readtext` raising — because of the `finally` at
app.py lines 121-125.  The unlink event records whether the deletion
itself succeeded; its failure being swallowed is claim C10. -/
theorem C8 (readerOk : Bool) (p k : Nat) (img : EmbImage) :
    (processImage readerOk p k img).trace = []
    ∨ ∃ mid, (processImage readerOk p k img).trace
        = Event.writeTemp p k :: (mid ++ [Event.unlink p k img.unlinkOk]) := by
  rcases processImage_trace_shape readerOk p k img with h | h | h
  · exact Or.inl h
  · exact Or.inr ⟨[], by rw [h]; rfl⟩
  · exact Or.inr ⟨[Event.ocrCall p k], by rw [h]; rfl⟩

/-! ## Claim C9 — progress reporting -/

/-- C9 as stated is false: the progress notification is emitted at the TOP
of each page iteration (app.py lines 70-72), before the page is processed,
not after it.  For the one-page document the first trace event is already
the `1/1` progress notification, preceding the page's `load_page` and
image events, so the actual trace differs from the after-each-page trace
the claim describes. -/
theorem C9_counterexample :
    ¬ ((process_pdf true docOnePage).map Pieces.trace
        = .ok (progressAfterEachPageTrace true [pageHello] 0 1)) := by
  decide

/-- C9 amended: for every successfully opened document with N pages, one
progress notification is emitted per page — BEFORE that page is processed
rather than after it — regardless of the page's success; the notified
sequence of fractions is (1/N, 2/N, ..., N/N): strictly monotonically
increasing with constant denominator, ending at N/N = 1 when all N pages
are attempted. -/
theorem C9_amended (readerOk : Bool) (d : PdfInput) (pages : List Page)
    (hs : d.size ≤ MAX_PDF_SIZE_MB * 1024 * 1024)
    (ho : d.openResult = .ok pages) :
    ∃ out, process_pdf readerOk d = .ok out
      ∧ progressFractions out.trace
          = (List.range pages.length).map (fun k => (k + 1, pages.length))
      ∧ List.Chain' (fun a b : Nat × Nat => a.1 < b.1 ∧ a.2 = b.2)
          (progressFractions out.trace)
      ∧ (0 < pages.length →
          (progressFractions out.trace).getLast?
            = some (pages.length, pages.length)) := by
  have hv : validate_pdf_size_fails d.size = false := by
    simp only [validate_pdf_size_fails, decide_eq_false_iff_not, gt_iff_lt, not_lt]
    exact hs
  have hfr : progressFractions (processPages readerOk pages 0 pages.length).trace
      = (List.range pages.length).map (fun k => (k + 1, pages.length)) := by
    have h0 := progressFractions_processPages readerOk pages 0 pages.length
    simpa using h0
  refine ⟨processPages readerOk pages 0 pages.length, ?_, hfr, ?_, ?_⟩
  · simp [process_pdf, hv, ho]
  · rw [hfr]
    exact chain_fractions _ _
  · intro hn
    rw [hfr]
    exact getLast_fractions _ _ hn

/-- Concrete instance of `C9_amended` at the one-page document. -/
theorem C9_witness :
    ∃ out, process_pdf true docOnePage = .ok out
      ∧ progressFractions out.trace
          = (List.range ([pageHello].length)).map (fun k => (k + 1, [pageHello].length))
      ∧ List.Chain' (fun a b : Nat × Nat => a.1 < b.1 ∧ a.2 = b.2)
          (progressFractions out.trace)
      ∧ (0 < [pageHello].length →
          (progressFractions out.trace).getLast?
            = some ([pageHello].length, [pageHello].length)) :=
  C9_amended true docOnePage [pageHello] (by decide) rfl

/-! ## Claim C10 — unlink failure silently swallowed -/

/-- C10 confirmed: when deleting the transient OCR file fails, the
`except: pass` at app.py lines 124-125 swallows it — the image's recorded
markdown, errors and warnings are identical to those of the same image
whose deletion succeeds, the trace differs at most in the unlink event's
success flag, and subsequent images are processed exactly as before
(enumeration continues unaffected). -/
theorem C10 (readerOk : Bool) (p k : Nat) (img : EmbImage)
    (hu : img.unlinkOk = false) :
    ((processImage readerOk p k img).errors
        = (processImage readerOk p k { img with unlinkOk := true }).errors)
    ∧ ((processImage readerOk p k img).warnings
        = (processImage readerOk p k { img with unlinkOk := true }).warnings)
    ∧ ((processImage readerOk p k img).markdown
        = (processImage readerOk p k { img with unlinkOk := true }).markdown)
    ∧ ((processImage readerOk p k img).trace.map scrubUnlink
        = (processImage readerOk p k { img with unlinkOk := true }).trace.map scrubUnlink)
    ∧ (∀ rest, processImages readerOk p (img :: rest) k
        = processImage readerOk p k img ++ processImages readerOk p rest (k + 1)) := by
  clear hu
  rcases img with ⟨sz, dec, ex, exm, ocr, ul⟩
  cases ex with
  | false => exact ⟨rfl, rfl, rfl, rfl, fun rest => rfl⟩
  | true =>
      rcases hval : validate_image ⟨sz, dec, true, exm, ocr, ul⟩ with m | b
      · have hval' : validate_image ⟨sz, dec, true, exm, ocr, true⟩ = .error m := hval
        refine ⟨?_, ?_, ?_, ?_, fun rest => rfl⟩ <;>
          simp [processImage, hval, hval']
      · have hval' : validate_image ⟨sz, dec, true, exm, ocr, true⟩ = .ok b := hval
        cases b
        · refine ⟨?_, ?_, ?_, ?_, fun rest => rfl⟩ <;>
            simp [processImage, hval, hval']
        · cases readerOk
          · refine ⟨?_, ?_, ?_, ?_, fun rest => rfl⟩ <;>
              simp [processImage, hval, hval', scrubUnlink]
          · rcases ocr with m2 | l
            · refine ⟨?_, ?_, ?_, ?_, fun rest => rfl⟩ <;>
                simp [processImage, hval, hval', scrubUnlink]
            · cases l
              · refine ⟨?_, ?_, ?_, ?_, fun rest => rfl⟩ <;>
                  simp [processImage, hval, hval', scrubUnlink]
              · refine ⟨?_, ?_, ?_, ?_, fun rest => rfl⟩ <;>
                  simp [processImage, hval, hval', scrubUnlink]

/-- Concrete instance of `C10` at an admitted image whose unlink fails. -/
theorem C10_witness :
    (processImage true 0 0 imgUnlinkFail).errors
      = (processImage true 0 0 { imgUnlinkFail with unlinkOk := true }).errors :=
  (C10 true 0 0 imgUnlinkFail rfl).1
